import Mathlib

/-!
Verification of the weathr terminal weather animation program.

The development shallowly embeds the Rust sources:
  * `src/animation/raindrops.rs` — the raindrop particle system;
  * `src/main.rs` — scene-flag derivation, layer draw order, and the
    fetch/refresh behaviour of the main loop;
  * `src/render.rs` — the cell-write queue of the terminal renderer
    (only the part the raindrop system uses).

Modelling conventions:
  * Rust `u16` values are `Nat`; where the source performs `u16`
    arithmetic that can wrap (release-mode semantics) or casts a wider
    value to `u16`, the embedding takes the result modulo 65536
    explicitly.
  * Rust `f32` values are modelled as exact rationals (`ℚ`): literals
    such as `3.7` become `37/10`, `+` and `*` are exact, `%` is the
    Rust float remainder (truncated toward zero), and `as u16` is the
    saturating truncation toward zero.  No branch decided by any claim
    in this development depends on `f32` rounding error.
  * Fallible evaluation (Rust integer `%` panics on a zero divisor) is
    tracked by `Option`-valued "checked" twins of the functions.
-/

namespace Weathr

/-- Truncation of a rational toward zero, as Rust float-to-integer
conversion and float remainder do. -/
def truncQ (q : ℚ) : ℤ := if q < 0 then ⌈q⌉ else ⌊q⌋

/-- Rust `%` on `f32` values (remainder truncated toward zero),
idealized over ℚ.  For a zero divisor Rust produces NaN; here the
dividend is returned, and every use in the development is guarded so
that a zero divisor is never reached. -/
def f32mod (a b : ℚ) : ℚ := a - b * truncQ (a / b)

/-- Rust `as u16` applied to an `f32`: truncate toward zero and
saturate into `[0, 65535]`.  `Int.toNat` sends negatives to `0`,
matching the lower saturation bound. -/
def u16ofF32 (q : ℚ) : ℕ := min (Int.toNat ⌊q⌋) 65535

/-- One raindrop, from `struct Raindrop` in `raindrops.rs`:
`x: u16`, `y: f32`, `speed: f32`, `character: char`. -/
structure Raindrop where
  x : ℕ
  y : ℚ
  speed : ℚ
  character : Char
deriving DecidableEq

/-- The raindrop particle system, from `struct RaindropSystem`. -/
structure RaindropSystem where
  drops : List Raindrop
  terminal_width : ℕ
  terminal_height : ℕ
deriving DecidableEq

/-- The four rain glyphs `['|', '\'', '.', '`']` from
`RaindropSystem::new` (`Char.ofNat 39` is the apostrophe and
`Char.ofNat 96` the backquote). -/
def rainChars : List Char := ['|', Char.ofNat 39, '.', Char.ofNat 96]

/-- The loop body of `RaindropSystem::new` producing drop number `i`:
`x = (i as u16 * 7) % terminal_width` (the cast truncates `i` modulo
2^16 and the `u16` product wraps modulo 2^16),
`y = (i as f32 * 3.7) % terminal_height as f32`,
`speed = 0.3 + (i % 5) as f32 * 0.1`,
`character = characters[i % 4]` (the index is always in bounds, so the
`getD` default is unreachable). -/
def mkDrop (w h : ℕ) (i : ℕ) : Raindrop :=
  { x := i % 65536 * 7 % 65536 % w
    y := f32mod ((i : ℚ) * (37 / 10)) (h : ℚ)
    speed := 3 / 10 + ((i % 5 : ℕ) : ℚ) * (1 / 10)
    character := rainChars.getD (i % 4) '|' }

/-- `RaindropSystem::new`: the population size is
`(terminal_width as usize * terminal_height as usize) / 40` and each
drop is produced by the loop body `mkDrop`. -/
def RaindropSystem.new (w h : ℕ) : RaindropSystem :=
  { drops := (List.range (w * h / 40)).map (mkDrop w h)
    terminal_width := w
    terminal_height := h }

/-- The per-drop body of the update loop in `RaindropSystem::update`:
`drop.y += drop.speed;` then, when `drop.y as u16 >= terminal_height`,
reset `y` to `0.0` and set
`x = (drop.x as usize * 13 + 7) as u16 % terminal_width` (the `usize`
sum is exact, the `as u16` cast truncates modulo 2^16). -/
def stepDrop (w h : ℕ) (d : Raindrop) : Raindrop :=
  let y := d.y + d.speed
  if h ≤ u16ofF32 y then
    { d with y := 0, x := (d.x * 13 + 7) % 65536 % w }
  else
    { d with y := y }

/-- `RaindropSystem::update`: on any dimension mismatch the whole
system is rebuilt by `new`; otherwise every drop advances by
`stepDrop`. -/
def RaindropSystem.update (s : RaindropSystem) (w h : ℕ) : RaindropSystem :=
  if s.terminal_width ≠ w ∨ s.terminal_height ≠ h then
    RaindropSystem.new w h
  else
    { s with drops := s.drops.map (stepDrop w h) }

/-- States of the raindrop system reachable from a constructor call by
a sequence of updates. -/
inductive Reachable : RaindropSystem → Prop
  | new (w h : ℕ) : Reachable (RaindropSystem.new w h)
  | update (s : RaindropSystem) (w h : ℕ) :
      Reachable s → Reachable (RaindropSystem.update s w h)

/-- The foreground colours used by the modelled renderer calls. -/
inductive TermColor
  | cyan
deriving DecidableEq

/-- The queue of cell writes accumulated by `TerminalRenderer`
(`render.rs`): each `render_char(x, y, ch, color)` call queues one
`(x, y, ch, color)` write (`MoveTo`, `SetForegroundColor`, `Print`,
`ResetColor` batched as a single cell write). -/
structure RenderQueue where
  queued : List (ℕ × ℕ × Char × TermColor)
deriving DecidableEq

/-- `TerminalRenderer::render_char` queues one cell write. -/
def RenderQueue.render_char (r : RenderQueue) (x y : ℕ) (ch : Char)
    (c : TermColor) : RenderQueue :=
  ⟨r.queued ++ [(x, y, ch, c)]⟩

/-- `RaindropSystem::render`: for each drop let `y = drop.y as u16`;
when `y < self.terminal_height && drop.x < self.terminal_width` issue
`render_char(drop.x, y, drop.character, Color::Cyan)`, otherwise issue
nothing. -/
def RaindropSystem.render (s : RaindropSystem) (r : RenderQueue) : RenderQueue :=
  s.drops.foldl
    (fun r d =>
      let y := u16ofF32 d.y
      if y < s.terminal_height ∧ d.x < s.terminal_width then
        r.render_char d.x y d.character TermColor.cyan
      else r)
    r

/-- Checked twin of `mkDrop`: `none` exactly when evaluating it in
Rust would take a remainder by zero (`% terminal_width` on integers —
a panic — or the float `% terminal_height`, which would yield NaN). -/
def mkDropChecked (w h : ℕ) (i : ℕ) : Option Raindrop :=
  if w = 0 then none
  else if h = 0 then none
  else some (mkDrop w h i)

/-- Run a fallible body over a list, collecting the results; `none` as
soon as one evaluation fails (the fallible counterpart of the
construction/update loops). -/
def mapOption (f : α → Option β) : List α → Option (List β)
  | [] => some []
  | a :: l => do
    let b ← f a
    let bs ← mapOption f l
    pure (b :: bs)

/-- Checked twin of `RaindropSystem.new`: fails iff some iteration of
the construction loop would take a remainder by zero. -/
def newChecked (w h : ℕ) : Option RaindropSystem := do
  let drops ← mapOption (mkDropChecked w h) (List.range (w * h / 40))
  pure { drops := drops, terminal_width := w, terminal_height := h }

/-- Checked twin of `stepDrop`: `none` exactly when the wrap branch
would evaluate `% terminal_width` with a zero width. -/
def stepDropChecked (w h : ℕ) (d : Raindrop) : Option Raindrop :=
  let y := d.y + d.speed
  if h ≤ u16ofF32 y then
    if w = 0 then none
    else some { d with y := 0, x := (d.x * 13 + 7) % 65536 % w }
  else some { d with y := y }

/-- Checked twin of `RaindropSystem.update`. -/
def updateChecked (s : RaindropSystem) (w h : ℕ) : Option RaindropSystem :=
  if s.terminal_width ≠ w ∨ s.terminal_height ≠ h then
    newChecked w h
  else do
    let drops ← mapOption (stepDropChecked w h) s.drops
    pure { s with drops := drops }

/-- The fourteen weather conditions.  The enum itself lives in the
`weather` module; its variant list is fixed by the exhaustive `match`
on `weather.condition` in `run_app` (`main.rs`, lines 180–195). -/
inductive WeatherCondition
  | clear
  | partlyCloudy
  | cloudy
  | overcast
  | fog
  | drizzle
  | rain
  | freezingRain
  | snow
  | snowGrains
  | rainShowers
  | snowShowers
  | thunderstorm
  | thunderstormHail
deriving DecidableEq, Fintype

/-- The three booleans `is_raining`, `is_thunderstorm`, `is_cloudy`
kept by `run_app`. -/
structure SceneFlags where
  is_raining : Bool
  is_thunderstorm : Bool
  is_cloudy : Bool
deriving DecidableEq

/-- Scene-flag derivation from a condition.  `run_app` contains this
computation twice with identical bodies: once for a simulated
condition (`main.rs` lines 103–118) and once after a successful fetch
(lines 148–163).  Each `matches!` becomes a disjunction of equality
tests. -/
def sceneFlags (c : WeatherCondition) : SceneFlags :=
  let is_thunderstorm :=
    c == WeatherCondition.thunderstorm || c == WeatherCondition.thunderstormHail
  let is_raining :=
    !is_thunderstorm &&
      (c == WeatherCondition.drizzle || c == WeatherCondition.rain ||
        c == WeatherCondition.rainShowers || c == WeatherCondition.freezingRain)
  let is_cloudy :=
    c == WeatherCondition.partlyCloudy || c == WeatherCondition.cloudy ||
      c == WeatherCondition.overcast
  ⟨is_raining, is_thunderstorm, is_cloudy⟩

/-- One drawable layer of a tick, in the order `run_app` issues them
(`main.rs` lines 219–262).  `sun` and `house` carry the row chosen by
the height threshold. -/
inductive Layer
  | clouds
  | birds
  | sun (row : ℕ)
  | house (row : ℕ)
  | rain
  | storm
deriving DecidableEq

/-- The `show_sun` computation of `run_app` (lines 239–243): when a
snapshot is held it looks only at the held condition; with no snapshot
it falls back to the three scene flags. -/
def showSun (weather : Option WeatherCondition) (r t cl : Bool) : Bool :=
  match weather with
  | some c => c == WeatherCondition.clear || c == WeatherCondition.partlyCloudy
  | none => !r && !t && !cl

/-- The layers one tick draws, in order, as a function of the held
condition, the three scene flags and the terminal height
(`main.rs` lines 219–262): the clouds/birds block, the sun layer, the
house, then storm else rain else nothing. -/
def layersDrawn (weather : Option WeatherCondition) (r t cl : Bool)
    (termHeight : ℕ) : List Layer :=
  (if cl || (!r && !t) then
    (if cl then [Layer.clouds] else []) ++
      (if !r && !t then [Layer.birds] else [])
  else []) ++
  (if showSun weather r t cl && !r && !t then
    [Layer.sun (if termHeight > 20 then 3 else 2)]
  else []) ++
  [Layer.house (if termHeight > 20 then 10 else 9)] ++
  (if t then [Layer.storm] else if r then [Layer.rain] else [])

/-- Consistency of the mutable scene flags with the held snapshot.
`run_app` assigns the flags exactly where it assigns
`current_weather`, so this invariant holds on every tick: with a held
condition the flags are its `sceneFlags`; with no snapshot they keep
their all-false initial values. -/
def FlagsConsistent (weather : Option WeatherCondition) (r t cl : Bool) : Prop :=
  match weather with
  | some c =>
      r = (sceneFlags c).is_raining ∧ t = (sceneFlags c).is_thunderstorm ∧
        cl = (sceneFlags c).is_cloudy
  | none => r = false ∧ t = false ∧ cl = false

/-- Modelled from the spec (§4.3 draw order) and amended for the
no-snapshot tick: the expected layer list — clouds if cloudy, birds if
neither raining nor storming, the sun if the held condition is Clear
or PartlyCloudy (or no snapshot is held and no flag is set) and it is
not raining or storming, the house always, then storm else rain else
nothing.  Compared with `layersDrawn`, which is translated from the
code. -/
def specLayers (weather : Option WeatherCondition) (termHeight : ℕ) : List Layer :=
  let f := match weather with
    | some c => sceneFlags c
    | none => ⟨false, false, false⟩
  (if f.is_cloudy then [Layer.clouds] else []) ++
  (if !f.is_raining && !f.is_thunderstorm then [Layer.birds] else []) ++
  (if (match weather with
      | some c => c == WeatherCondition.clear || c == WeatherCondition.partlyCloudy
      | none => !f.is_raining && !f.is_thunderstorm && !f.is_cloudy) &&
      !f.is_raining && !f.is_thunderstorm then
    [Layer.sun (if termHeight > 20 then 3 else 2)]
  else []) ++
  [Layer.house (if termHeight > 20 then 10 else 9)] ++
  (if f.is_thunderstorm then [Layer.storm]
  else if f.is_raining then [Layer.rain] else [])

/-- The weather snapshot (`WeatherData` of the `weather` module), with
the fields `run_app` constructs and reads; floats as ℚ. -/
structure WeatherData where
  condition : WeatherCondition
  temperature : ℚ
  apparent_temperature : ℚ
  humidity : ℚ
  precipitation : ℚ
  wind_speed : ℚ
  wind_direction : ℚ
  cloud_cover : ℚ
  pressure : ℚ
  visibility : Option ℚ
  is_day : Bool
  timestamp : String
deriving DecidableEq

/-- The snapshot `run_app` synthesizes for a simulated condition
(`main.rs` lines 119–139). -/
def simulatedWeather (c : WeatherCondition) : WeatherData :=
  { condition := c
    temperature := 20
    apparent_temperature := 19
    humidity := 65
    precipitation :=
      if c == WeatherCondition.rain || c == WeatherCondition.drizzle ||
          c == WeatherCondition.rainShowers then 5 / 2
      else 0
    wind_speed := 10
    wind_direction := 180
    cloud_cover := 50
    pressure := 1013
    visibility := some 10000
    is_day := true
    timestamp := "simulated" }

/-- The `condition_text` computation of `run_app` (lines 179–198):
a display name per held condition, `"Loading..."` with no snapshot. -/
def conditionText : Option WeatherData → String
  | some w =>
    match w.condition with
    | WeatherCondition.clear => "Clear"
    | WeatherCondition.partlyCloudy => "Partly Cloudy"
    | WeatherCondition.cloudy => "Cloudy"
    | WeatherCondition.overcast => "Overcast"
    | WeatherCondition.fog => "Fog"
    | WeatherCondition.drizzle => "Drizzle"
    | WeatherCondition.rain => "Rain"
    | WeatherCondition.freezingRain => "Freezing Rain"
    | WeatherCondition.snow => "Snow"
    | WeatherCondition.snowGrains => "Snow Grains"
    | WeatherCondition.rainShowers => "Rain Showers"
    | WeatherCondition.snowShowers => "Snow Showers"
    | WeatherCondition.thunderstorm => "Thunderstorm"
    | WeatherCondition.thunderstormHail => "Thunderstorm with Hail"
  | none => "Loading..."

/-- The header line `weather_info` of `run_app` (lines 200–215).  The
`{:.2}` / `{:.1}` numeric formatting of latitude, longitude and
temperature is abstracted as the pre-formatted strings `tempStr`,
`latStr`, `lonStr`; the branch structure and every literal fragment
follow the source. -/
def weatherInfo (wError : Option String) (weather : Option WeatherData)
    (tempStr latStr lonStr : String) : String :=
  match wError with
  | some err =>
      err ++ " | Location: " ++ latStr ++ "°N, " ++ lonStr ++
        "°E | Press 'q' to quit"
  | none =>
    match weather with
    | some w =>
        "Weather: " ++ conditionText (some w) ++ " | Temp: " ++ tempStr ++
          "°C | Location: " ++ latStr ++ "°N, " ++ lonStr ++
          "°E | Press 'q' to quit"
    | none =>
        "Weather: Loading... | Location: " ++ latStr ++ "°N, " ++ lonStr ++
          "°E | Press 'q' to quit"

/-- `REFRESH_INTERVAL`, `Duration::from_secs(300)`, in seconds. -/
def REFRESH_INTERVAL : ℕ := 300

/-- The keyboard events the loop distinguishes: `q`, `Q`,
control-modified `c`, anything else. -/
inductive KeyEvent
  | charQLower
  | charQUpper
  | ctrlC
  | other
deriving DecidableEq

/-- The mutable loop state of `run_app` that the fetch/refresh logic
touches: `last_update` (as an abstract non-negative timestamp),
`current_weather`, `weather_error` and the three scene flags. -/
structure AppState where
  lastUpdate : ℕ
  currentWeather : Option WeatherData
  weatherError : Option String
  is_raining : Bool
  is_thunderstorm : Bool
  is_cloudy : Bool
deriving DecidableEq

/-- The loop state as it stands when the loop is first entered
(`main.rs` lines 88–140): all-false flags, no error, no snapshot and
`last_update = Instant::now()` — except that a simulated condition
installs its synthesized snapshot and the derived flags. -/
def initState (simulate : Option WeatherCondition) (startTime : ℕ) : AppState :=
  match simulate with
  | none =>
      { lastUpdate := startTime, currentWeather := none, weatherError := none
        is_raining := false, is_thunderstorm := false, is_cloudy := false }
  | some c =>
      { lastUpdate := startTime
        currentWeather := some (simulatedWeather c)
        weatherError := none
        is_raining := (sceneFlags c).is_raining
        is_thunderstorm := (sceneFlags c).is_thunderstorm
        is_cloudy := (sceneFlags c).is_cloudy }

/-- The per-tick external inputs: the current time (so
`last_update.elapsed()` is `now - lastUpdate`), the outcome the
weather client would return if consulted this tick, and the polled
keyboard event, if any. -/
structure TickInput where
  now : ℕ
  fetchResult : Except String WeatherData
  key : Option KeyEvent

/-- The observable outcome of one tick: the new state, whether
`get_current_weather` was invoked, and whether the loop breaks. -/
structure TickResult where
  state : AppState
  fetched : Bool
  quit : Bool

/-- One iteration of the `run_app` loop, restricted to its
state-changing logic (lines 142–172 fetch/refresh, lines 266–276 key
handling).  The fetch is attempted iff no condition is simulated and
(no snapshot is held or the refresh interval has elapsed); on success
the flags, snapshot and error are replaced, on failure only the error
string is set; in both cases `last_update` is reset to now.  The loop
breaks iff the polled key is `q`, `Q` or control-`c`. -/
def tick (simulate : Option WeatherCondition) (s : AppState)
    (inp : TickInput) : TickResult :=
  let doFetch := simulate.isNone &&
    (s.currentWeather.isNone || decide (REFRESH_INTERVAL ≤ inp.now - s.lastUpdate))
  let s1 :=
    if doFetch then
      match inp.fetchResult with
      | Except.ok w =>
          { s with
            is_thunderstorm := (sceneFlags w.condition).is_thunderstorm
            is_raining := (sceneFlags w.condition).is_raining
            is_cloudy := (sceneFlags w.condition).is_cloudy
            currentWeather := some w
            weatherError := none
            lastUpdate := inp.now }
      | Except.error e =>
          { s with
            weatherError := some ("Error fetching weather: " ++ e)
            lastUpdate := inp.now }
    else s
  let quit :=
    match inp.key with
    | some KeyEvent.charQLower => true
    | some KeyEvent.charQUpper => true
    | some KeyEvent.ctrlC => true
    | _ => false
  ⟨s1, doFetch, quit⟩

/-- A whole session: run `tick` over a list of per-tick inputs,
stopping after a tick that breaks; returns the final state and the
number of ticks on which `get_current_weather` was invoked. -/
def runLoop (simulate : Option WeatherCondition) :
    AppState → List TickInput → AppState × ℕ
  | s, [] => (s, 0)
  | s, inp :: rest =>
    let r := tick simulate s inp
    if r.quit then (r.state, if r.fetched then 1 else 0)
    else
      let (s', n) := runLoop simulate r.state rest
      (s', (if r.fetched then 1 else 0) + n)

/-! Helper lemmas (shared; none of them is a claim theorem). -/

theorem new_drops_length (w h : ℕ) :
    (RaindropSystem.new w h).drops.length = w * h / 40 := by
  simp [RaindropSystem.new]

theorem new_drops_getElem (w h i : ℕ) (hi : i < w * h / 40) :
    (RaindropSystem.new w h).drops[i]? = some (mkDrop w h i) := by
  simp [RaindropSystem.new, List.getElem?_map, List.getElem?_range, hi]

theorem update_eq_new (s : RaindropSystem) (w h : ℕ)
    (hne : s.terminal_width ≠ w ∨ s.terminal_height ≠ h) :
    RaindropSystem.update s w h = RaindropSystem.new w h := by
  rw [RaindropSystem.update, if_pos hne]

theorem update_eq_map (s : RaindropSystem) (w h : ℕ)
    (hw : s.terminal_width = w) (hh : s.terminal_height = h) :
    RaindropSystem.update s w h = { s with drops := s.drops.map (stepDrop w h) } := by
  rw [RaindropSystem.update, if_neg]
  simp [hw, hh]

theorem update_terminal_width (s : RaindropSystem) (w h : ℕ) :
    (RaindropSystem.update s w h).terminal_width = w := by
  rw [RaindropSystem.update]
  split
  · rfl
  · next hcond =>
    push_neg at hcond
    exact hcond.1

theorem update_terminal_height (s : RaindropSystem) (w h : ℕ) :
    (RaindropSystem.update s w h).terminal_height = h := by
  rw [RaindropSystem.update]
  split
  · rfl
  · next hcond =>
    push_neg at hcond
    exact hcond.2

theorem foldl_render_queued (H W : ℕ) (ds : List Raindrop) (r : RenderQueue) :
    (ds.foldl
        (fun r d =>
          let y := u16ofF32 d.y
          if y < H ∧ d.x < W then
            r.render_char d.x y d.character TermColor.cyan
          else r)
        r).queued
      = r.queued ++ ds.filterMap
          (fun d =>
            if u16ofF32 d.y < H ∧ d.x < W then
              some (d.x, u16ofF32 d.y, d.character, TermColor.cyan)
            else none) := by
  induction ds generalizing r with
  | nil => simp
  | cons d ds ih =>
    rw [List.foldl_cons, List.filterMap_cons]
    by_cases hd : u16ofF32 d.y < H ∧ d.x < W
    · rw [if_pos hd, if_pos hd, ih]
      simp [RenderQueue.render_char]
    · rw [if_neg hd, if_neg hd, ih]

theorem render_queued (s : RaindropSystem) (r : RenderQueue) :
    (s.render r).queued
      = r.queued ++ s.drops.filterMap
          (fun d =>
            if u16ofF32 d.y < s.terminal_height ∧ d.x < s.terminal_width then
              some (d.x, u16ofF32 d.y, d.character, TermColor.cyan)
            else none) :=
  foldl_render_queued s.terminal_height s.terminal_width s.drops r

theorem u16ofF32_ge (h : ℕ) (q : ℚ) (h16 : h < 65536) (hq : (h : ℚ) ≤ q) :
    h ≤ u16ofF32 q := by
  have hfloor : (h : ℤ) ≤ ⌊q⌋ := Int.le_floor.mpr (by exact_mod_cast hq)
  have htn : h ≤ (⌊q⌋).toNat := by
    have := Int.toNat_le_toNat hfloor
    simpa using this
  exact le_min htn (by omega)

theorem stepDrop_wraps (w h : ℕ) (d : Raindrop) (h16 : h < 65536)
    (hq : (h : ℚ) ≤ d.y + d.speed) :
    stepDrop w h d =
      { x := (d.x * 13 + 7) % 65536 % w, y := 0, speed := d.speed,
        character := d.character } := by
  rw [stepDrop]
  simp only [if_pos (u16ofF32_ge h (d.y + d.speed) h16 hq)]

theorem stepDrop_speed_character (w h : ℕ) (d : Raindrop) :
    (stepDrop w h d).speed = d.speed ∧ (stepDrop w h d).character = d.character := by
  rw [stepDrop]
  split <;> exact ⟨rfl, rfl⟩

theorem count_zero_of_degenerate (w h : ℕ) (hz : w = 0 ∨ h = 0) :
    w * h / 40 = 0 := by
  rcases hz with hz | hz <;> subst hz <;> simp

theorem mapOption_mkDropChecked (w h : ℕ) (hw : w ≠ 0) (hh : h ≠ 0) (l : List ℕ) :
    mapOption (mkDropChecked w h) l = some (l.map (mkDrop w h)) := by
  induction l with
  | nil => rfl
  | cons a l ih =>
    rw [List.map_cons]
    simp [mapOption, mkDropChecked, hw, hh, ih]

theorem newChecked_eq (w h : ℕ) : newChecked w h = some (RaindropSystem.new w h) := by
  rcases Nat.eq_zero_or_pos (w * h / 40) with hcnt | hcnt
  · rw [newChecked, RaindropSystem.new, hcnt, List.range_zero]
    rfl
  · have hw : w ≠ 0 := by
      rintro rfl
      simp at hcnt
    have hh : h ≠ 0 := by
      rintro rfl
      simp at hcnt
    rw [newChecked, RaindropSystem.new, mapOption_mkDropChecked w h hw hh]
    rfl

/-! Claim theorems. -/

/-- C1.  For every viewport with positive dimensions and every
reachable raindrop state cached at those dimensions, the render pass
that follows an update writes only cells with `x < w` and truncated
`y < h` (the `x, y : ℕ` model makes `0 ≤ x` intrinsic), and the queued
writes are exactly the in-bounds drops at their truncated positions:
out-of-range drops are skipped, never clamped or drawn. -/
theorem rain_render_in_bounds (s : RaindropSystem) (w h : ℕ)
    (hreach : Reachable s) (hw : s.terminal_width = w)
    (hh : s.terminal_height = h) (hw0 : 0 < w) (hh0 : 0 < h) :
    ((RaindropSystem.update s w h).render ⟨[]⟩).queued
      = (RaindropSystem.update s w h).drops.filterMap
          (fun d =>
            if u16ofF32 d.y < h ∧ d.x < w then
              some (d.x, u16ofF32 d.y, d.character, TermColor.cyan)
            else none)
    ∧ ∀ e ∈ ((RaindropSystem.update s w h).render ⟨[]⟩).queued,
        e.1 < w ∧ e.2.1 < h := by
  have hq : ((RaindropSystem.update s w h).render ⟨[]⟩).queued
      = (RaindropSystem.update s w h).drops.filterMap
          (fun d =>
            if u16ofF32 d.y < h ∧ d.x < w then
              some (d.x, u16ofF32 d.y, d.character, TermColor.cyan)
            else none) := by
    have hq0 := render_queued (RaindropSystem.update s w h) ⟨[]⟩
    rw [update_terminal_width, update_terminal_height] at hq0
    rw [hq0]
    rfl
  constructor
  · exact hq
  · intro e he
    rw [hq] at he
    rw [List.mem_filterMap] at he
    obtain ⟨d, _, hd⟩ := he
    by_cases hb : u16ofF32 d.y < h ∧ d.x < w
    · rw [if_pos hb] at hd
      cases hd
      exact ⟨hb.2, hb.1⟩
    · rw [if_neg hb] at hd
      cases hd

/-- Witness for C1 at the reachable state `new 8 10`. -/
theorem rain_render_in_bounds_witness :
    Reachable (RaindropSystem.new 8 10)
    ∧ (((RaindropSystem.update (RaindropSystem.new 8 10) 8 10).render ⟨[]⟩).queued
        = (RaindropSystem.update (RaindropSystem.new 8 10) 8 10).drops.filterMap
            (fun d =>
              if u16ofF32 d.y < 10 ∧ d.x < 8 then
                some (d.x, u16ofF32 d.y, d.character, TermColor.cyan)
              else none)
      ∧ ∀ e ∈ ((RaindropSystem.update (RaindropSystem.new 8 10) 8 10).render ⟨[]⟩).queued,
          e.1 < 8 ∧ e.2.1 < 10) :=
  ⟨Reachable.new 8 10,
    rain_render_in_bounds (RaindropSystem.new 8 10) 8 10 (Reachable.new 8 10)
      rfl rfl (by decide) (by decide)⟩

/-- C2, counterexample.  The claim's remap formula `(x*13+7) mod w` is
wrong for large widths: the source computes
`(drop.x as usize * 13 + 7) as u16 % terminal_width`, truncating the
sum to `u16` before the reduction.  At width 6000 a drop with `x =
5047` (an initial position the constructor itself produces at that
width) whose `y + speed = 11` exceeds `h = 10` wraps to `x = 82`,
while the claimed formula yields 5618. -/
theorem rain_wrap_remap_cx :
    ((RaindropSystem.update
          ⟨[⟨5047, 9, 2, '|'⟩], 6000, 10⟩ 6000 10).drops[0]?).map Raindrop.x
      = some 82
    ∧ (5047 * 13 + 7) % 6000 = 5618
    ∧ (10 : ℚ) < 9 + 2 := by
  refine ⟨?_, by decide, by norm_num⟩
  have h1 : RaindropSystem.update ⟨[⟨5047, 9, 2, '|'⟩], 6000, 10⟩ 6000 10
      = { drops := [stepDrop 6000 10 ⟨5047, 9, 2, '|'⟩],
          terminal_width := 6000, terminal_height := 10 } :=
    update_eq_map ⟨[⟨5047, 9, 2, '|'⟩], 6000, 10⟩ 6000 10 rfl rfl
  rw [h1, stepDrop_wraps 6000 10 ⟨5047, 9, 2, '|'⟩ (by decide) (by norm_num)]
  rfl

/-- C2, amended.  For every raindrop and every update at the cached
viewport `(w, h)` (with `h` in `u16` range, as in the source), if the
drop's `y` after adding its speed exceeds `h`, the drop is reset to
`y = 0` and its `x` is remapped to `((x*13 + 7) mod 2^16) mod w` —
the source formula including the `u16` truncation of the sum — so the
drop is never left out of bounds. -/
theorem rain_wrap_remap (s : RaindropSystem) (w h i : ℕ) (d : Raindrop)
    (hw : s.terminal_width = w) (hh : s.terminal_height = h)
    (hd : s.drops[i]? = some d) (h16 : h < 65536)
    (hexceed : (h : ℚ) < d.y + d.speed) :
    (RaindropSystem.update s w h).drops[i]? =
      some { x := (d.x * 13 + 7) % 65536 % w, y := 0, speed := d.speed,
             character := d.character }
    ∧ (0 < w → (d.x * 13 + 7) % 65536 % w < w) := by
  constructor
  · rw [update_eq_map s w h hw hh]
    simp only [List.getElem?_map, hd]
    rw [show Option.map (stepDrop w h) (some d) = some (stepDrop w h d) from rfl,
      stepDrop_wraps w h d h16 (le_of_lt hexceed)]
  · intro hw0
    exact Nat.mod_lt _ hw0

/-- Witness for C2 (amended) on a one-drop state at viewport 8×10. -/
theorem rain_wrap_remap_witness :
    (RaindropSystem.update ⟨[⟨3, 9, 2, '|'⟩], 8, 10⟩ 8 10).drops[0]? =
      some { x := (3 * 13 + 7) % 65536 % 8, y := 0, speed := 2,
             character := '|' }
    ∧ (0 < 8 → (3 * 13 + 7) % 65536 % 8 < 8) :=
  rain_wrap_remap ⟨[⟨3, 9, 2, '|'⟩], 8, 10⟩ 8 10 0 ⟨3, 9, 2, '|'⟩
    rfl rfl rfl (by decide) (by norm_num)

/-- C3.  An update at dimensions differing from the cached ones
discards the whole population: the state becomes exactly
`new w h`, whose population count is `(w*h)/40` computed from the new
dimensions. -/
theorem rain_resize_repopulates (s : RaindropSystem) (w h : ℕ)
    (hne : s.terminal_width ≠ w ∨ s.terminal_height ≠ h) :
    RaindropSystem.update s w h = RaindropSystem.new w h
    ∧ (RaindropSystem.update s w h).drops.length = w * h / 40 := by
  refine ⟨update_eq_new s w h hne, ?_⟩
  rw [update_eq_new s w h hne, new_drops_length]

/-- Witness for C3: resizing a 5×5 system to 6×5. -/
theorem rain_resize_repopulates_witness :
    RaindropSystem.update (RaindropSystem.new 5 5) 6 5 = RaindropSystem.new 6 5
    ∧ (RaindropSystem.update (RaindropSystem.new 5 5) 6 5).drops.length
        = 6 * 5 / 40 :=
  rain_resize_repopulates (RaindropSystem.new 5 5) 6 5 (Or.inl (by decide))

/-- C8, counterexample.  The claimed initial-position formula
`x = (i*7) mod w` omits the `u16` truncation of the product
`i as u16 * 7`.  At viewport 65535×6 the population has 9830 drops and
drop 9363 receives `x = (9363*7) mod 2^16 mod 65535 = 5`, while the
claimed formula gives 6. -/
theorem rain_init_formula_cx :
    ((RaindropSystem.new 65535 6).drops[9363]?).map Raindrop.x = some 5
    ∧ (9363 * 7) % 65535 = 6 := by
  refine ⟨?_, by decide⟩
  rw [new_drops_getElem 65535 6 9363 (by decide)]
  rfl

/-- C8, amended.  Initialization is deterministic, driven only by each
drop's index: for every viewport and every index `i` below the
population count `(w*h)/40`, drop `i` is exactly
`x = (((i mod 2^16) * 7) mod 2^16) mod w` (the source's `u16`
arithmetic), `y = (i * 3.7) mod h`, `speed = 0.3 + (i mod 5) * 0.1`
and the glyph at index `i mod 4` of the fixed four-character list; no
random-number generator is involved, so two constructions at the same
viewport are equal. -/
theorem rain_init_deterministic (w h i : ℕ) (hi : i < w * h / 40) :
    (RaindropSystem.new w h).drops[i]? =
      some { x := i % 65536 * 7 % 65536 % w
             y := f32mod ((i : ℚ) * (37 / 10)) (h : ℚ)
             speed := 3 / 10 + ((i % 5 : ℕ) : ℚ) * (1 / 10)
             character := rainChars.getD (i % 4) '|' }
    ∧ (RaindropSystem.new w h).drops.length = w * h / 40 := by
  refine ⟨?_, new_drops_length w h⟩
  rw [new_drops_getElem w h i hi]
  rfl

/-- Witness for C8 (amended) at viewport 8×10, index 0. -/
theorem rain_init_deterministic_witness :
    (RaindropSystem.new 8 10).drops[0]? =
      some { x := 0 % 65536 * 7 % 65536 % 8
             y := f32mod ((0 : ℚ) * (37 / 10)) (10 : ℚ)
             speed := 3 / 10 + ((0 % 5 : ℕ) : ℚ) * (1 / 10)
             character := rainChars.getD (0 % 4) '|' }
    ∧ (RaindropSystem.new 8 10).drops.length = 8 * 10 / 40 :=
  rain_init_deterministic 8 10 0 (by decide)

/-- C9.  An update at the cached dimensions preserves the population
count and, per index, every drop's speed and glyph — only positions
may change. -/
theorem rain_update_frame (s : RaindropSystem) (w h : ℕ)
    (hw : s.terminal_width = w) (hh : s.terminal_height = h) :
    (RaindropSystem.update s w h).drops.length = s.drops.length
    ∧ ∀ i : ℕ,
        ((RaindropSystem.update s w h).drops[i]?).map
            (fun d => (d.speed, d.character))
          = (s.drops[i]?).map (fun d => (d.speed, d.character)) := by
  rw [update_eq_map s w h hw hh]
  refine ⟨by simp, ?_⟩
  intro i
  simp only [List.getElem?_map]
  cases hdi : s.drops[i]? with
  | none => rfl
  | some d =>
    have h2 := stepDrop_speed_character w h d
    simp [h2.1, h2.2]

/-- Witness for C9 at the state `new 8 10`. -/
theorem rain_update_frame_witness :
    (RaindropSystem.update (RaindropSystem.new 8 10) 8 10).drops.length
        = (RaindropSystem.new 8 10).drops.length
    ∧ ∀ i : ℕ,
        ((RaindropSystem.update (RaindropSystem.new 8 10) 8 10).drops[i]?).map
            (fun d => (d.speed, d.character))
          = ((RaindropSystem.new 8 10).drops[i]?).map
              (fun d => (d.speed, d.character)) :=
  rain_update_frame (RaindropSystem.new 8 10) 8 10 rfl rfl

/-- C10.  On a degenerate viewport (zero width or height) the
constructor produces an empty population whose count still equals
`(w*h)/40 = 0`, and the checked evaluations of both `new` and any
subsequent `update` succeed: no remainder by zero is ever evaluated,
so no operation fails. -/
theorem rain_degenerate_total (w h : ℕ) (hz : w = 0 ∨ h = 0) :
    (RaindropSystem.new w h).drops = []
    ∧ (RaindropSystem.new w h).drops.length = w * h / 40
    ∧ newChecked w h = some (RaindropSystem.new w h)
    ∧ ∀ w' h' : ℕ,
        updateChecked (RaindropSystem.new w h) w' h'
          = some (RaindropSystem.update (RaindropSystem.new w h) w' h') := by
  have hcnt : w * h / 40 = 0 := count_zero_of_degenerate w h hz
  have hempty : (RaindropSystem.new w h).drops = [] := by
    rw [RaindropSystem.new, hcnt, List.range_zero]
    rfl
  refine ⟨hempty, new_drops_length w h, newChecked_eq w h, ?_⟩
  intro w' h'
  by_cases hne : (RaindropSystem.new w h).terminal_width ≠ w'
      ∨ (RaindropSystem.new w h).terminal_height ≠ h'
  · rw [updateChecked, if_pos hne, update_eq_new _ _ _ hne, newChecked_eq]
  · push_neg at hne
    rw [updateChecked, if_neg (by simp [hne.1, hne.2]),
      update_eq_map _ _ _ hne.1 hne.2, hempty]
    rfl

/-- Witness for C10 at the degenerate viewport 0×7. -/
theorem rain_degenerate_total_witness :
    (RaindropSystem.new 0 7).drops = []
    ∧ (RaindropSystem.new 0 7).drops.length = 0 * 7 / 40
    ∧ newChecked 0 7 = some (RaindropSystem.new 0 7)
    ∧ ∀ w' h' : ℕ,
        updateChecked (RaindropSystem.new 0 7) w' h'
          = some (RaindropSystem.update (RaindropSystem.new 0 7) w' h') :=
  rain_degenerate_total 0 7 (Or.inl rfl)

/-- C4.  The condition-to-scene-flag mapping is a pure function of the
fourteen-variant condition: the two thunderstorm variants set only
`is_thunderstorm`; the four rain variants set only `is_raining`; the
three cloud variants set only `is_cloudy`; Clear, Fog and the snow
family set none; for every condition at most one flag is set. -/
theorem scene_flags_mapping :
    ∀ c : WeatherCondition,
      ((c = WeatherCondition.thunderstorm ∨ c = WeatherCondition.thunderstormHail) →
        sceneFlags c = ⟨false, true, false⟩)
      ∧ ((c = WeatherCondition.drizzle ∨ c = WeatherCondition.rain ∨
            c = WeatherCondition.rainShowers ∨ c = WeatherCondition.freezingRain) →
        sceneFlags c = ⟨true, false, false⟩)
      ∧ ((c = WeatherCondition.partlyCloudy ∨ c = WeatherCondition.cloudy ∨
            c = WeatherCondition.overcast) →
        sceneFlags c = ⟨false, false, true⟩)
      ∧ ((c = WeatherCondition.clear ∨ c = WeatherCondition.fog ∨
            c = WeatherCondition.snow ∨ c = WeatherCondition.snowGrains ∨
            c = WeatherCondition.snowShowers) →
        sceneFlags c = ⟨false, false, false⟩)
      ∧ ((sceneFlags c).is_raining && (sceneFlags c).is_thunderstorm) = false
      ∧ ((sceneFlags c).is_raining && (sceneFlags c).is_cloudy) = false
      ∧ ((sceneFlags c).is_thunderstorm && (sceneFlags c).is_cloudy) = false := by
  decide

/-- Witness for C4: the Rain condition yields the raining-only flags. -/
theorem scene_flags_mapping_witness :
    sceneFlags WeatherCondition.rain = ⟨true, false, false⟩ :=
  (scene_flags_mapping WeatherCondition.rain).2.1 (Or.inr (Or.inl rfl))

/-- C5, counterexample.  On a tick with no held snapshot (and the
flags at their consistent all-false values) the sun layer is drawn,
although no held condition is Clear or PartlyCloudy — the claim's
"sun only if the held condition is Clear or PartlyCloudy" fails on
snapshot-less ticks. -/
theorem draw_order_cx :
    layersDrawn none false false false 25
      = [Layer.birds, Layer.sun 3, Layer.house 10]
    ∧ FlagsConsistent none false false false := by
  exact ⟨by decide, rfl, rfl, rfl⟩

/-- C5, amended.  On every tick whose scene flags are consistent with
the held snapshot, the layers are drawn back to front in the fixed
order: clouds only if cloudy, birds only if neither raining nor
storming, the sun only if the held condition is Clear or PartlyCloudy
— or no snapshot is held and no flag is set — and it is not raining or
storming, the house always at the height-threshold row, then exactly
one precipitation layer: storm if `is_thunderstorm`, else rain if
`is_raining`, else none (as captured by the spec-side `specLayers`). -/
theorem draw_order (weather : Option WeatherCondition) (r t cl : Bool) (th : ℕ)
    (hc : FlagsConsistent weather r t cl) :
    layersDrawn weather r t cl th = specLayers weather th := by
  cases weather with
  | none =>
    obtain ⟨hr, ht, hcl⟩ := hc
    subst hr
    subst ht
    subst hcl
    rfl
  | some c =>
    obtain ⟨hr, ht, hcl⟩ := hc
    subst hr
    subst ht
    subst hcl
    cases c <;> rfl

/-- Witness for C5 (amended) at the Rain condition. -/
theorem draw_order_witness :
    layersDrawn (some WeatherCondition.rain) true false false 25
      = specLayers (some WeatherCondition.rain) 25 :=
  draw_order (some WeatherCondition.rain) true false false 25 ⟨rfl, rfl, rfl⟩

/-- On a simulated run every tick skips the fetch and leaves the state
untouched. -/
theorem runLoop_simulated (c : WeatherCondition) (s : AppState)
    (inputs : List TickInput) : runLoop (some c) s inputs = (s, 0) := by
  induction inputs generalizing s with
  | nil => rfl
  | cons inp rest ih =>
    show (if (tick (some c) s inp).quit then _ else _) = _
    have hst : (tick (some c) s inp).state = s := rfl
    have hf : (tick (some c) s inp).fetched = false := rfl
    split
    · rw [hst, hf]
      rfl
    · rw [hst, hf, ih s]
      rfl

/-- C6.  With a simulated condition the session never invokes
`get_current_weather`: over any whole run the fetch count is zero and
the state — in particular the snapshot synthesized at startup — is
never replaced. -/
theorem simulated_never_fetches (c : WeatherCondition) (t0 : ℕ)
    (inputs : List TickInput) :
    runLoop (some c) (initState (some c) t0) inputs = (initState (some c) t0, 0)
    ∧ (initState (some c) t0).currentWeather = some (simulatedWeather c) :=
  ⟨runLoop_simulated c (initState (some c) t0) inputs, rfl⟩

/-- C7, counterexample.  After a failed first fetch the snapshot is
still `none`, and the very next tick — here one second after the
failed attempt, far inside the 300-second refresh interval — invokes
the fetch again: the claim's "no retry occurs before the next
scheduled refresh interval elapses" fails while no snapshot is held. -/
theorem fetch_retry_before_interval_cx :
    (tick none
        ⟨5, none, some "Error fetching weather: net", false, false, false⟩
        ⟨6, Except.error "net", none⟩).fetched = true
    ∧ (6 : ℕ) < 5 + REFRESH_INTERVAL :=
  ⟨rfl, by decide⟩

/-- Unfolding lemma: a tick's state is decided by its fetch flag and
the fetch outcome. -/
theorem tick_state_eq (simulate : Option WeatherCondition) (s : AppState)
    (inp : TickInput) :
    (tick simulate s inp).state
      = if (tick simulate s inp).fetched = true then
          (match inp.fetchResult with
            | Except.ok w =>
                { s with
                  is_thunderstorm := (sceneFlags w.condition).is_thunderstorm
                  is_raining := (sceneFlags w.condition).is_raining
                  is_cloudy := (sceneFlags w.condition).is_cloudy
                  currentWeather := some w
                  weatherError := none
                  lastUpdate := inp.now }
            | Except.error e =>
                { s with
                  weatherError := some ("Error fetching weather: " ++ e)
                  lastUpdate := inp.now })
        else s := rfl

/-- Unfolding lemma: the fetch-guard of a tick. -/
theorem tick_fetched (simulate : Option WeatherCondition) (s : AppState)
    (inp : TickInput) :
    (tick simulate s inp).fetched
      = (simulate.isNone && (s.currentWeather.isNone ||
          decide (REFRESH_INTERVAL ≤ inp.now - s.lastUpdate))) := rfl

/-- Unfolding lemma: a tick quits exactly on the three quit keys. -/
theorem tick_quit (simulate : Option WeatherCondition) (s : AppState)
    (inp : TickInput) :
    (tick simulate s inp).quit
      = (match inp.key with
          | some KeyEvent.charQLower => true
          | some KeyEvent.charQUpper => true
          | some KeyEvent.ctrlC => true
          | _ => false) := rfl

/-- C7, amended.  On a tick whose fetch errors the held snapshot and
flags are retained unchanged (`none` stays `none`, making the header
condition read `Loading...`), the error is captured as the status
string shown in the header line, the loop does not break unless a quit
key arrives, and — when a snapshot is held — no fetch occurs on any
tick before the refresh interval has elapsed since `last_update`; with
no snapshot held the fetch is instead re-attempted on the next tick. -/
theorem fetch_error_recovery :
    (∀ (s : AppState) (inp : TickInput) (e : String),
      inp.fetchResult = Except.error e → inp.key = none →
        (tick none s inp).state.currentWeather = s.currentWeather
        ∧ (tick none s inp).state.is_raining = s.is_raining
        ∧ (tick none s inp).state.is_thunderstorm = s.is_thunderstorm
        ∧ (tick none s inp).state.is_cloudy = s.is_cloudy
        ∧ (tick none s inp).quit = false
        ∧ ((tick none s inp).fetched = true →
            (tick none s inp).state.weatherError
              = some ("Error fetching weather: " ++ e)
            ∧ (tick none s inp).state.lastUpdate = inp.now)
        ∧ (s.currentWeather = none →
            conditionText (tick none s inp).state.currentWeather = "Loading...")
        ∧ (∀ tempStr latStr lonStr : String, (tick none s inp).fetched = true →
            weatherInfo (tick none s inp).state.weatherError
                (tick none s inp).state.currentWeather tempStr latStr lonStr
              = "Error fetching weather: " ++ e ++ " | Location: " ++ latStr ++
                "°N, " ++ lonStr ++ "°E | Press 'q' to quit"))
    ∧ (∀ (s : AppState) (w : WeatherData) (inp : TickInput),
        s.currentWeather = some w →
          inp.now < s.lastUpdate + REFRESH_INTERVAL →
            (tick none s inp).fetched = false) := by
  constructor
  · intro s inp e herr hkey
    have hq : (tick none s inp).quit = false := by
      rw [tick_quit, hkey]
    cases hdf : (tick none s inp).fetched with
    | true =>
      have hst : (tick none s inp).state
          = { s with weatherError := some ("Error fetching weather: " ++ e),
                     lastUpdate := inp.now } := by
        rw [tick_state_eq none s inp, hdf, if_pos rfl, herr]
      rw [hst]
      refine ⟨rfl, rfl, rfl, rfl, hq, fun _ => ⟨rfl, rfl⟩, ?_, ?_⟩
      · intro hnone
        show conditionText s.currentWeather = _
        rw [hnone]
        rfl
      · intro tempStr latStr lonStr _
        rfl
    | false =>
      have hst : (tick none s inp).state = s := by
        rw [tick_state_eq none s inp, hdf]
        rfl
      rw [hst]
      refine ⟨rfl, rfl, rfl, rfl, hq, ?_, ?_, ?_⟩
      · intro hcontra
        cases hcontra
      · intro hnone
        rw [hnone]
        rfl
      · intro tempStr latStr lonStr hcontra
        cases hcontra
  · intro s w inp hheld hearly
    rw [tick_fetched, hheld]
    have hlt : ¬ REFRESH_INTERVAL ≤ inp.now - s.lastUpdate := by
      rw [REFRESH_INTERVAL] at hearly ⊢
      omega
    simp [hlt]

/-- Witness for C7 (amended): an erroring first fetch at time 400, and
the no-early-retry fact for a held snapshot one second after its
fetch. -/
theorem fetch_error_recovery_witness :
    ((tick none ⟨0, none, none, false, false, false⟩
        ⟨400, Except.error "boom", none⟩).state.currentWeather = none
      ∧ (tick none ⟨0, none, none, false, false, false⟩
          ⟨400, Except.error "boom", none⟩).state.is_raining = false
      ∧ (tick none ⟨0, none, none, false, false, false⟩
          ⟨400, Except.error "boom", none⟩).state.is_thunderstorm = false
      ∧ (tick none ⟨0, none, none, false, false, false⟩
          ⟨400, Except.error "boom", none⟩).state.is_cloudy = false
      ∧ (tick none ⟨0, none, none, false, false, false⟩
          ⟨400, Except.error "boom", none⟩).quit = false
      ∧ ((tick none ⟨0, none, none, false, false, false⟩
            ⟨400, Except.error "boom", none⟩).fetched = true →
          (tick none ⟨0, none, none, false, false, false⟩
              ⟨400, Except.error "boom", none⟩).state.weatherError
            = some ("Error fetching weather: " ++ "boom")
          ∧ (tick none ⟨0, none, none, false, false, false⟩
              ⟨400, Except.error "boom", none⟩).state.lastUpdate = 400)
      ∧ ((none : Option WeatherData) = none →
          conditionText (tick none ⟨0, none, none, false, false, false⟩
              ⟨400, Except.error "boom", none⟩).state.currentWeather
            = "Loading...")
      ∧ (∀ tempStr latStr lonStr : String,
          (tick none ⟨0, none, none, false, false, false⟩
              ⟨400, Except.error "boom", none⟩).fetched = true →
            weatherInfo
                (tick none ⟨0, none, none, false, false, false⟩
                    ⟨400, Except.error "boom", none⟩).state.weatherError
                (tick none ⟨0, none, none, false, false, false⟩
                    ⟨400, Except.error "boom", none⟩).state.currentWeather
                tempStr latStr lonStr
              = "Error fetching weather: " ++ "boom" ++ " | Location: " ++
                latStr ++ "°N, " ++ lonStr ++ "°E | Press 'q' to quit"))
    ∧ (tick none
        ⟨5, some (simulatedWeather WeatherCondition.clear), none,
          false, false, false⟩
        ⟨6, Except.error "x", none⟩).fetched = false :=
  ⟨fetch_error_recovery.1 ⟨0, none, none, false, false, false⟩
      ⟨400, Except.error "boom", none⟩ "boom" rfl rfl,
    fetch_error_recovery.2
      ⟨5, some (simulatedWeather WeatherCondition.clear), none,
        false, false, false⟩
      (simulatedWeather WeatherCondition.clear)
      ⟨6, Except.error "x", none⟩ rfl (by decide)⟩

end Weathr
